import Mathlib

/-!
Verification of the sapphire download coordinator and status monitor

Shallow embedding of `sps/src/pipeline/downloader.rs` (the
`DownloadCoordinator`) and `sps/src/cli/status.rs` (the `StatusDisplay`
monitor and `handle_events` loop), together with proofs of the testable properties stated by the specification.

Modelling conventions:
* Rust `u64`/`usize` values are modelled as `Nat`.  The only subtraction the
  source performs on them is `saturating_sub`, which coincides with
  truncated `Nat` subtraction.
* `f64` values (instants, byte rates, the accumulator of the byte/speed
  formatters) are modelled as exact rationals (`ℚ`).  All inputs the
  theorems below evaluate are exactly representable in `f64` and the
  arithmetic on them is exact, so the idealisation is faithful there.
* `HashMap<String, JobInfo>` is modelled as an association list with
  first-match lookup; `HashSet<String>` as a `Finset String`.
* External collaborators (the HTTP/source/cask fetch functions, the file
  metadata call, channel send success, task panics) are supplied by a
  per-job environment record `JobEnv`.
* ANSI colouring from the `colored` crate is elided: coloured text is
  modelled by its plain contents.
-/

deriving instance DecidableEq for Except

namespace Sapphire

/-- A filesystem path (`std::path::PathBuf`), modelled by its string form. -/
abbrev Path := String

/-- Model of `sps_common::SpsError` (external).  The coordinator only ever
constructs the `Generic` variant; every other variant of the external enum
is collapsed into `Other`. -/
inductive SpsError where
  | Generic (msg : String)
  | Other (msg : String)
deriving DecidableEq, Repr

/-- Model of the `Display` rendering of an `SpsError`, used where the source
interpolates an error into an event or log line. -/
def SpsError.message : SpsError → String
  | .Generic msg => msg
  | .Other msg => msg

/-- Model of `sps_net::UrlField`: a cask URL is either a bare string or a
structured value carrying a URL plus extra spec metadata (the metadata is
never read by the code under verification, so it is elided). -/
inductive UrlField where
  | Simple (s : String)
  | WithSpec (url : String)
deriving DecidableEq, Repr

/-- Model of a formula definition as read by the downloader: its source
`url`, and the result of `get_bottle_for_platform` (external), which either
resolves a platform bottle spec URL (`some`) or fails (`none`, in which case
the source falls back to `f.url`). -/
structure Formula where
  url : String
  bottle_platform_url : Option String
deriving DecidableEq, Repr

/-- Model of a cask definition as read by the downloader: its optional URL
field. -/
structure Cask where
  url : Option UrlField
deriving DecidableEq, Repr

/-- `sps_common::model::InstallTargetIdentifier`. -/
inductive InstallTargetIdentifier where
  | Formula (f : Formula)
  | Cask (c : Cask)
deriving DecidableEq, Repr

/-- `sps_common::pipeline::PlannedJob` (the fields read by the code under
verification). -/
structure PlannedJob where
  target_id : String
  target_definition : InstallTargetIdentifier
  is_source_build : Bool
  use_private_store_source : Option Path
deriving DecidableEq, Repr

/-- `sps_common::pipeline::JobAction` (payload detail of `Upgrade` and
`Reinstall` elided; only the constructor tag is read). -/
inductive JobAction where
  | Install
  | Upgrade
  | Reinstall
deriving DecidableEq, Repr

/-- `sps_common::pipeline::PipelinePackageType`. -/
inductive PipelinePackageType where
  | Formula
  | Cask
deriving DecidableEq, Repr

/-- `sps_common::pipeline::PipelineEvent`.  `duration_secs` is an `f64`,
modelled as `ℚ`. -/
inductive PipelineEvent where
  | PipelineStarted (total_jobs : Nat)
  | PlanningStarted
  | DependencyResolutionStarted
  | DependencyResolutionFinished
  | PlanningFinished (job_count : Nat)
  | DownloadStarted (target_id url : String)
  | DownloadProgressUpdate (target_id : String) (bytes_so_far : Nat) (total_size : Option Nat)
  | DownloadFinished (target_id : String) (path : Path) (size_bytes : Nat)
  | DownloadCached (target_id : String) (size_bytes : Nat)
  | DownloadFailed (target_id url error : String)
  | JobProcessingStarted (target_id : String)
  | BuildStarted (target_id : String)
  | InstallStarted (target_id : String)
  | LinkStarted (target_id : String)
  | JobSuccess (target_id : String) (action : JobAction) (pkg_type : PipelinePackageType)
  | JobFailed (target_id : String) (error : String)
  | LogInfo (message : String)
  | LogWarn (message : String)
  | LogError (message : String)
  | PipelineFinished (duration_secs : ℚ) (success_count fail_count : Nat)
deriving DecidableEq, Repr

/-- `sps_common::pipeline::DownloadOutcome`: a planned job paired with the
resolved artifact path or the acquisition error. -/
structure DownloadOutcome where
  planned_job : PlannedJob
  result : Except SpsError Path
deriving DecidableEq, Repr

/-! ## Download coordinator (`sps/src/pipeline/downloader.rs`)

Each spawned task interacts with external collaborators: the fetch
functions, `fs::metadata`, the outcome channel, and the async runtime
(which surfaces panics at the join boundary).  These are modelled by a
per-job environment. -/

/-- Environment of one spawned download task: the behaviour of everything
external to `downloader.rs` that the task awaits or calls.

* `fetchResult` — what the appropriate external fetch function
  (`download_source_with_progress` /
  `download_bottle_with_progress_and_cache_info` /
  `download_cask_with_progress`) returns, if it returns.
* `progress` — the `(bytes_so_far, total_size)` arguments of the calls the
  fetch function makes to the progress callback before completing.
* `statSize` — `fs::metadata(&path).map(|m| m.len())`, `none` on error.
* `panics` / `panicMsg` — whether the awaited fetch panics instead of
  returning, and the panic payload extracted by `get_panic_message`.
* `sendOk` — whether `outcome_tx.send(outcome).await` succeeds (it fails
  only when the downstream receiver was dropped). -/
structure JobEnv where
  fetchResult : Except SpsError (Path × Bool)
  progress : List (Nat × Option Nat)
  statSize : Option Nat
  panics : Bool
  panicMsg : String
  sendOk : Bool
deriving DecidableEq, Repr

/-- `display_url_for_event` in `coordinate_downloads` (downloader.rs:68-82):
the canonical source URL computed for display and validation. -/
def displayUrlForEvent (job : PlannedJob) : String :=
  match job.target_definition with
  | .Formula f =>
    if ¬ job.is_source_build then
      -- get_bottle_for_platform(f).map_or_else(|_| f.url, |(_, spec)| spec.url)
      match f.bottle_platform_url with
      | some spec_url => spec_url
      | none => f.url
    else f.url
  | .Cask c =>
    match c.url with
    | some (.Simple s) => s
    | some (.WithSpec url) => url
    | none => "N/A (No Cask URL)"

/-- The `actual_download_result` dispatch (downloader.rs:122-140): source
builds and cask downloads wrap the returned path as `(path, false)`; the
bottle fetch reports its own cache flag. -/
def fetchFor (job : PlannedJob) (env : JobEnv) : Except SpsError (Path × Bool) :=
  match job.target_definition with
  | .Formula _ =>
    if job.is_source_build then env.fetchResult.map (fun p => (p.1, false))
    else env.fetchResult
  | .Cask _ => env.fetchResult.map (fun p => (p.1, false))

/-- Observable behaviour of one spawned download task:
the events it sends on the broadcast bus, the `DownloadOutcome` it
constructs (`none` only when it panicked before reaching that point), the
panic payload if it panicked, and whether it invoked an external fetch. -/
structure TaskRun where
  events : List PipelineEvent
  outcome : Option DownloadOutcome
  panicPayload : Option String
  fetchInvoked : Bool
deriving DecidableEq, Repr

/-- One spawned task of `coordinate_downloads` (downloader.rs:61-190).
`hasTx` models `task_event_tx.is_some()`; a panic, when the environment
says the awaited fetch panics, happens inside that await — after the
started/progress events, before any completion event and before the
outcome is constructed. -/
def runJobTask (job : PlannedJob) (env : JobEnv) (hasTx : Bool) : TaskRun :=
  match job.use_private_store_source with
  | some private_path =>
    { events := [], outcome := some ⟨job, .ok private_path⟩,
      panicPayload := none, fetchInvoked := false }
  | none =>
    let display_url := displayUrlForEvent job
    if display_url = "N/A (No Cask URL)" ∨ (display_url = "" ∧ ¬ job.is_source_build) then
      let sps_err := SpsError.Generic
        ("Download URL is missing or invalid for job " ++ job.target_id)
      { events :=
          if hasTx then [.DownloadFailed job.target_id display_url sps_err.message] else [],
        outcome := some ⟨job, .error sps_err⟩,
        panicPayload := none, fetchInvoked := false }
    else
      let started_events :=
        if hasTx then [PipelineEvent.DownloadStarted job.target_id display_url] else []
      let progress_events :=
        if hasTx then
          env.progress.map (fun p => PipelineEvent.DownloadProgressUpdate job.target_id p.1 p.2)
        else []
      if env.panics then
        { events := started_events ++ progress_events, outcome := none,
          panicPayload := some env.panicMsg, fetchInvoked := true }
      else
        match fetchFor job env with
        | .ok (path, was_cached) =>
          let size_bytes := env.statSize.getD 0
          let done_events :=
            if hasTx then
              [if was_cached then PipelineEvent.DownloadCached job.target_id size_bytes
               else PipelineEvent.DownloadFinished job.target_id path size_bytes]
            else []
          { events := started_events ++ progress_events ++ done_events,
            outcome := some ⟨job, .ok path⟩,
            panicPayload := none, fetchInvoked := true }
        | .error e =>
          { events := started_events ++ progress_events ++
              (if hasTx then [.DownloadFailed job.target_id display_url e.message] else []),
            outcome := some ⟨job, .error e⟩,
            panicPayload := none, fetchInvoked := true }

/-- Result of `coordinate_downloads`: the outcomes that were successfully
sent on the outcome channel, the events broadcast (in one admissible
serialisation: tasks in submission order), and the returned
`critical_spawn_errors` list. -/
structure CoordinateResult where
  outcomes : List DownloadOutcome
  events : List PipelineEvent
  critical_spawn_errors : List (String × SpsError)
deriving DecidableEq, Repr

/-- `DownloadCoordinator::coordinate_downloads` (downloader.rs:43-208) for a
coordinator fresh from `new` (so `event_tx` is present).  The task of each job
runs `runJobTask`; an outcome reaches the channel iff the task constructed
one and the channel send succeeded; the join loop (downloader.rs:193-205)
turns each panicked task into one synthetic
`("[UnknownDownloadTaskPanic]", Generic)` entry. -/
def coordinate_downloads : List (PlannedJob × JobEnv) → CoordinateResult
  | [] => { outcomes := [], events := [], critical_spawn_errors := [] }
  | (job, env) :: rest =>
    let r := runJobTask job env true
    let c := coordinate_downloads rest
    { outcomes := (if env.sendOk then r.outcome.toList else []) ++ c.outcomes,
      events := r.events ++ c.events,
      critical_spawn_errors :=
        (r.panicPayload.map (fun msg =>
          ("[UnknownDownloadTaskPanic]",
           SpsError.Generic ("A download task panicked: " ++ msg)))).toList
        ++ c.critical_spawn_errors }

/-! ## Status monitor (`sps/src/cli/status.rs`) -/

/-- `JobStatus` (status.rs:12-23). -/
inductive JobStatus where
  | Waiting
  | Downloading
  | Downloaded
  | Cached
  | Processing
  | Installing
  | Linking
  | Success
  | Failed
deriving DecidableEq, Repr

/-- `JobInfo` (status.rs:69-76).  `start_time : Option<Instant>` is modelled
as an optional rational timestamp. -/
structure JobInfo where
  name : String
  status : JobStatus
  size_bytes : Option Nat
  current_bytes_downloaded : Option Nat
  start_time : Option ℚ
  pool_id : Nat
deriving DecidableEq, Repr

/-- First-match lookup in the association-list model of
`HashMap<String, JobInfo>`. -/
def lookupJob : List (String × JobInfo) → String → Option JobInfo
  | [], _ => none
  | (k, v) :: rest, target_id => if k = target_id then some v else lookupJob rest target_id

/-- `HashMap::contains_key`. -/
def containsJob (jobs : List (String × JobInfo)) (target_id : String) : Bool :=
  (lookupJob jobs target_id).isSome

/-- In-place mutation through `HashMap::get_mut`: replace the (unique, hence
first) entry with the given key. -/
def modifyJob : List (String × JobInfo) → String → JobInfo → List (String × JobInfo)
  | [], _, _ => []
  | (k, v) :: rest, target_id, nv =>
    if k = target_id then (k, nv) :: rest else (k, v) :: modifyJob rest target_id nv

/-- `StatusDisplay` (status.rs:94-109).  Fields named `_start_time` and
`_speed_history` in the source keep their role but drop the underscore. -/
structure StatusDisplay where
  jobs : List (String × JobInfo)
  job_order : List String
  total_jobs : Nat
  next_pool_id : Nat
  start_time_run : ℚ
  active_downloads : Finset String
  total_bytes : Nat
  downloaded_bytes : Nat
  last_speed_update : ℚ
  last_aggregate_bytes_snapshot : Nat
  current_speed_bps : ℚ
  speed_history : List ℚ
  header_printed : Bool
  last_line_count : Nat
deriving DecidableEq

/-- `StatusDisplay::new` (status.rs:112-129); `now` models `Instant::now()`. -/
def StatusDisplay.new (now : ℚ) : StatusDisplay where
  jobs := []
  job_order := []
  total_jobs := 0
  next_pool_id := 1
  start_time_run := now
  active_downloads := ∅
  total_bytes := 0
  downloaded_bytes := 0
  last_speed_update := now
  last_aggregate_bytes_snapshot := 0
  current_speed_bps := 0
  speed_history := []
  header_printed := false
  last_line_count := 0

/-- `StatusDisplay::add_job` (status.rs:131-162). -/
def StatusDisplay.add_job (s : StatusDisplay) (target_id : String) (status : JobStatus)
    (size_bytes : Option Nat) (now : ℚ) : StatusDisplay :=
  if containsJob s.jobs target_id then s
  else
    let job_info : JobInfo :=
      { name := target_id
        status := status
        size_bytes := size_bytes
        current_bytes_downloaded := if status = JobStatus.Downloading then some 0 else none
        start_time := if status ≠ JobStatus.Waiting then some now else none
        pool_id := s.next_pool_id }
    { s with
      total_bytes :=
        match size_bytes with
        | some bytes => s.total_bytes + bytes
        | none => s.total_bytes
      active_downloads :=
        if status = JobStatus.Downloading then insert target_id s.active_downloads
        else s.active_downloads
      jobs := s.jobs ++ [(target_id, job_info)]
      job_order := s.job_order ++ [target_id]
      next_pool_id := s.next_pool_id + 1 }

/-- `StatusDisplay::update_job_status` (status.rs:164-194).  Does nothing
when the job is unknown.  Note that when a size is supplied, the running
`total_bytes` is increased only if the job had no size yet; an
already-known size is overwritten without adjusting the aggregate. -/
def StatusDisplay.update_job_status (s : StatusDisplay) (target_id : String)
    (status : JobStatus) (size_bytes : Option Nat) (now : ℚ) : StatusDisplay :=
  match lookupJob s.jobs target_id with
  | none => s
  | some job =>
    let was_downloading := job.status = JobStatus.Downloading
    let is_downloading := status = JobStatus.Downloading
    let job := { job with status := status }
    let job :=
      if job.start_time = none ∧ status ≠ JobStatus.Waiting then
        { job with start_time := some now }
      else job
    let (job, total_bytes) :=
      match size_bytes with
      | some bytes =>
        ({ job with size_bytes := some bytes },
         if job.size_bytes = none then s.total_bytes + bytes else s.total_bytes)
      | none => (job, s.total_bytes)
    if was_downloading ∧ ¬ is_downloading then
      let (job, downloaded_bytes) :=
        match job.size_bytes with
        | some bytes =>
          ({ job with current_bytes_downloaded := some bytes }, s.downloaded_bytes + bytes)
        | none => (job, s.downloaded_bytes)
      { s with
        jobs := modifyJob s.jobs target_id job
        total_bytes := total_bytes
        downloaded_bytes := downloaded_bytes
        active_downloads := s.active_downloads.erase target_id }
    else if ¬ was_downloading ∧ is_downloading then
      { s with
        jobs := modifyJob s.jobs target_id { job with current_bytes_downloaded := some 0 }
        total_bytes := total_bytes
        active_downloads := insert target_id s.active_downloads }
    else
      { s with
        jobs := modifyJob s.jobs target_id job
        total_bytes := total_bytes }

/-- `StatusDisplay::update_download_progress` (status.rs:196-219).
`saturating_sub` is truncated `Nat` subtraction. -/
def StatusDisplay.update_download_progress (s : StatusDisplay) (target_id : String)
    (bytes_so_far : Nat) (total_size : Option Nat) : StatusDisplay :=
  match lookupJob s.jobs target_id with
  | none => s
  | some job =>
    let job := { job with current_bytes_downloaded := some bytes_so_far }
    match total_size with
    | none => { s with jobs := modifyJob s.jobs target_id job }
    | some total =>
      if job.size_bytes = none then
        { s with
          total_bytes := s.total_bytes + total
          jobs := modifyJob s.jobs target_id { job with size_bytes := some total } }
      else if job.size_bytes ≠ some total then
        -- `if let Some(old_size) = job.size_bytes` — necessarily `Some` here
        let old_size := job.size_bytes.getD 0
        { s with
          total_bytes := s.total_bytes - old_size + total
          jobs := modifyJob s.jobs target_id { job with size_bytes := some total } }
      else
        { s with jobs := modifyJob s.jobs target_id job }

/-- `StatusDisplay::update_speed` (status.rs:221-254).  Instants are
rational timestamps; `0.0625` is exactly `1/16`. -/
def StatusDisplay.update_speed (s : StatusDisplay) (now : ℚ) : StatusDisplay :=
  let time_diff := now - s.last_speed_update
  if time_diff ≥ 1 / 16 then
    let current_active_bytes : Nat :=
      ((s.jobs.filter (fun kv => kv.2.status = JobStatus.Downloading)).map
        (fun kv => kv.2.current_bytes_downloaded.getD 0)).sum
    let bytes_diff := current_active_bytes - s.last_aggregate_bytes_snapshot
    let s :=
      if time_diff > 0 ∧ bytes_diff > 0 then
        { s with current_speed_bps := (bytes_diff : ℚ) / time_diff }
      else if ¬ s.jobs.any (fun kv => kv.2.status = JobStatus.Downloading) then
        { s with current_speed_bps := 0 }
      else s
    { s with last_speed_update := now, last_aggregate_bytes_snapshot := current_active_bytes }
  else s

/-- One line of terminal output from the monitor.  The contents of a redraw
frame (header, per-job rows, separator) are pure presentation and are
abstracted into the single token `renderFrame`; the `println!` lines the
claims are about are kept individually.  ANSI colouring is elided. -/
inductive Output where
  | startingPipeline
  | resolvingDependencies
  | planningFinishedLine (job_count : Nat)
  | blank
  | renderFrame
  | pipelineFinishedLine (duration_secs : ℚ) (success_count fail_count : Nat)
  | logLine (message : String)
deriving DecidableEq, Repr

/-- Number of lines printed by `build_job_rows` (status.rs:310-338): one per
entry of `job_order` found in the map. -/
def StatusDisplay.jobRowsCount (s : StatusDisplay) : Nat :=
  (s.job_order.filter (fun target_id => containsJob s.jobs target_id)).length

/-- `StatusDisplay::render` (status.rs:256-297): recompute the speed, print
one frame, and track the printed line count so the next redraw can erase
it.  Job state (`jobs`, `job_order`, `next_pool_id`, `total_bytes`,
`active_downloads`) is read, never written, by rendering. -/
def StatusDisplay.render (s : StatusDisplay) (now : ℚ) : StatusDisplay × List Output :=
  let s := s.update_speed now
  if ¬ s.header_printed then
    ({ s with header_printed := true, last_line_count := 1 + s.jobRowsCount + 1 + 1 },
     [Output.renderFrame])
  else
    ({ s with last_line_count := 1 + s.jobRowsCount + 1 }, [Output.renderFrame])

/-- State of the `handle_events` loop (status.rs:399-404). -/
structure LoopState where
  display : StatusDisplay
  logs_buffer : List String
  pipeline_active : Bool
deriving DecidableEq

/-- Initial loop state of `handle_events`. -/
def LoopState.init (now : ℚ) : LoopState where
  display := StatusDisplay.new now
  logs_buffer := []
  pipeline_active := false

/-- What `event_rx.recv()` reports: an event, the closed condition (all
senders dropped), or a lag overflow. -/
inductive RecvResult where
  | ok (event : PipelineEvent)
  | closed
  | lagged
deriving DecidableEq, Repr

/-- `if pipeline_active { display.render(); }`. -/
def renderIfActive (st : LoopState) (now : ℚ) : LoopState × List Output :=
  if st.pipeline_active then
    ({ st with display := (st.display.render now).1 }, (st.display.render now).2)
  else (st, [])

/-- Common tail of the event arms: conditionally redraw, keep looping. -/
def recvStep (st : LoopState) (now : ℚ) : LoopState × List Output × Bool :=
  ((renderIfActive st now).1, (renderIfActive st now).2, false)

/-- One `event_rx.recv()` arm of the `handle_events` loop
(status.rs:413-592): the updated state, the lines printed, and whether the
loop `break`s.  `debug!`/`warn!` tracing lines are not terminal output and
produce nothing. -/
def handleRecv (st : LoopState) (r : RecvResult) (now : ℚ) :
    LoopState × List Output × Bool :=
  match r with
  | .closed => (st, [], true)
  | .lagged => (st, [], false)
  | .ok event =>
    match event with
    | .PipelineStarted total_jobs =>
      ({ st with pipeline_active := true,
                 display := { st.display with total_jobs := total_jobs } },
       [.startingPipeline], false)
    | .PlanningStarted => (st, [], false)
    | .DependencyResolutionStarted => (st, [.resolvingDependencies], false)
    | .DependencyResolutionFinished => (st, [], false)
    | .PlanningFinished job_count => (st, [.planningFinishedLine job_count, .blank], false)
    | .DownloadStarted target_id _url =>
      recvStep { st with
        display := st.display.add_job target_id JobStatus.Downloading none now } now
    | .DownloadFinished target_id _path size_bytes =>
      recvStep { st with
        display := st.display.update_job_status target_id JobStatus.Downloaded
          (some size_bytes) now } now
    | .DownloadProgressUpdate target_id bytes_so_far total_size =>
      recvStep { st with
        display := st.display.update_download_progress target_id bytes_so_far
          total_size } now
    | .DownloadCached target_id size_bytes =>
      recvStep { st with
        display := st.display.update_job_status target_id JobStatus.Cached
          (some size_bytes) now } now
    | .DownloadFailed target_id _url error =>
      recvStep { st with
        display := st.display.update_job_status target_id JobStatus.Failed none now
        logs_buffer := st.logs_buffer ++
          ["Download failed: " ++ target_id ++ ": " ++ error] } now
    | .JobProcessingStarted target_id =>
      recvStep { st with
        display := st.display.update_job_status target_id JobStatus.Processing none now } now
    | .BuildStarted target_id =>
      recvStep { st with
        display := st.display.update_job_status target_id JobStatus.Processing none now } now
    | .InstallStarted target_id =>
      recvStep { st with
        display := st.display.update_job_status target_id JobStatus.Installing none now } now
    | .LinkStarted target_id =>
      recvStep { st with
        display := st.display.update_job_status target_id JobStatus.Linking none now } now
    | .JobSuccess target_id action pkg_type =>
      let type_str := match pkg_type with
        | PipelinePackageType.Formula => "Formula"
        | PipelinePackageType.Cask => "Cask"
      let action_str := match action with
        | JobAction.Install => "Installed"
        | JobAction.Upgrade => "Upgraded"
        | JobAction.Reinstall => "Reinstalled"
      recvStep { st with
        display := st.display.update_job_status target_id JobStatus.Success none now
        logs_buffer := st.logs_buffer ++
          [action_str ++ ": " ++ target_id ++ " (" ++ type_str ++ ")"] } now
    | .JobFailed target_id error =>
      recvStep { st with
        display := st.display.update_job_status target_id JobStatus.Failed none now
        logs_buffer := st.logs_buffer ++ ["✗ " ++ target_id ++ ": " ++ error] } now
    | .LogInfo message => ({ st with logs_buffer := st.logs_buffer ++ [message] }, [], false)
    | .LogWarn message => ({ st with logs_buffer := st.logs_buffer ++ [message] }, [], false)
    | .LogError message => ({ st with logs_buffer := st.logs_buffer ++ [message] }, [], false)
    | .PipelineFinished duration_secs success_count fail_count =>
      ((if st.display.header_printed then
          { st with display := (st.display.render now).1 } else st),
       (if st.display.header_printed then (st.display.render now).2 else []) ++
         [Output.blank,
          Output.pipelineFinishedLine duration_secs success_count fail_count] ++
         (if st.logs_buffer.isEmpty then []
          else Output.blank :: st.logs_buffer.map Output.logLine),
       true)

/-- Fold a sequence of received events through the loop body (all at
timestamp `now`); used to exhibit concrete reachable monitor states. -/
def applyEvents (st : LoopState) (events : List PipelineEvent) (now : ℚ) : LoopState :=
  events.foldl (fun acc e => (handleRecv acc (.ok e) now).1) st

/-! ## Formatting (`format_bytes`, `format_speed`; status.rs:365-397) -/

/-- Model of the `{:.1}` formatting of the nonnegative finite values produced by
the two formatters: round value·10 to the nearest integer (ties away from
zero) and print one digit after the point.  (`f64` formatting rounds the
binary value to nearest; every value the theorems below evaluate is exact,
so no tie-breaking difference can be observed.) -/
def fmtOneDecimal (value : ℚ) : String :=
  let n := (round (value * 10)).toNat
  toString (n / 10) ++ "." ++ toString (n % 10)

/-- `UNITS` of `format_bytes` (status.rs:366). -/
def byteUnits : List String := ["B", "kB", "MB", "GB"]

/-- One test of the `while value >= 1000.0 && unit_idx < UNITS.len() - 1`
loop: divide by 1000 and bump the unit index, or leave the pair fixed.  A
fixed point stays fixed, so three applications compute the full loop. -/
def unitStep (vi : ℚ × Nat) : ℚ × Nat :=
  if 1000 ≤ vi.1 ∧ vi.2 < byteUnits.length - 1 then (vi.1 / 1000, vi.2 + 1) else vi

/-- `format_bytes` (status.rs:365-380). -/
def format_bytes (bytes : Nat) : String :=
  let vi := unitStep (unitStep (unitStep ((bytes : ℚ), 0)))
  if vi.2 = 0 then toString bytes ++ "B"
  else fmtOneDecimal vi.1 ++ byteUnits.getD vi.2 ""

/-- `UNITS` of `format_speed` (status.rs:387). -/
def speedUnits : List String := ["B/s", "kB/s", "MB/s", "GB/s"]

/-- `format_speed` (status.rs:382-397).  Note the space between the number
and the unit in the non-zero branch (`"{:.1} {}"`). -/
def format_speed (bytes_per_sec : ℚ) : String :=
  if bytes_per_sec < 1 then "0 B/s"
  else
    let vi := unitStep (unitStep (unitStep (bytes_per_sec, 0)))
    fmtOneDecimal vi.1 ++ " " ++ speedUnits.getD vi.2 ""

/-! ## Derived definitions used by the claims -/

/-- Sum of the per-job size estimates (`0` for an unknown size). -/
def sumSizes (jobs : List (String × JobInfo)) : Nat :=
  (jobs.map (fun kv => kv.2.size_bytes.getD 0)).sum

/-- Spec invariant (§3): `total_bytes` equals the sum of `size_bytes` over
all known jobs. -/
def totalBytesInv (s : StatusDisplay) : Prop := s.total_bytes = sumSizes s.jobs

/-- Spec invariant (§3): `active_downloads` contains exactly the jobs whose
status is `Downloading`. -/
def activeDownloadsInv (s : StatusDisplay) : Prop :=
  ∀ target_id : String, target_id ∈ s.active_downloads ↔
    ∃ ji, lookupJob s.jobs target_id = some ji ∧ ji.status = JobStatus.Downloading

/-- The `target_id` carried by an event, if any. -/
def eventTargetId : PipelineEvent → Option String
  | .DownloadStarted target_id _ => some target_id
  | .DownloadProgressUpdate target_id _ _ => some target_id
  | .DownloadFinished target_id _ _ => some target_id
  | .DownloadCached target_id _ => some target_id
  | .DownloadFailed target_id _ _ => some target_id
  | .JobProcessingStarted target_id => some target_id
  | .BuildStarted target_id => some target_id
  | .InstallStarted target_id => some target_id
  | .LinkStarted target_id => some target_id
  | .JobSuccess target_id _ _ => some target_id
  | .JobFailed target_id _ => some target_id
  | _ => none

/-- A concrete job with a private-store override. -/
def samplePrivateJob : PlannedJob where
  target_id := "alpha"
  target_definition := .Cask ⟨some (.Simple "https://example.com/a.dmg")⟩
  is_source_build := false
  use_private_store_source := some "/store/x"

/-- A concrete cask job with no URL field and no override. -/
def sampleNoUrlCaskJob : PlannedJob where
  target_id := "beta"
  target_definition := .Cask ⟨none⟩
  is_source_build := false
  use_private_store_source := none

/-- A concrete bottle-mode formula job. -/
def sampleBottleJob : PlannedJob where
  target_id := "gamma"
  target_definition := .Formula ⟨"https://example.com/gamma.tar.gz",
    some "https://example.com/gamma.bottle.tar.gz"⟩
  is_source_build := false
  use_private_store_source := none

/-- An environment in which the fetch succeeds quietly and the outcome
channel accepts the send. -/
def sampleQuietEnv : JobEnv where
  fetchResult := .ok ("/tmp/a", false)
  progress := []
  statSize := none
  panics := false
  panicMsg := ""
  sendOk := true

/-- An environment in which the awaited fetch panics. -/
def samplePanicEnv : JobEnv where
  fetchResult := .ok ("/tmp/a", false)
  progress := []
  statSize := none
  panics := true
  panicMsg := "boom"
  sendOk := true

/-- Event sequence realising the C2 counterexample: a download whose
server-reported total (100 bytes) differs from the size obtained by stat at
completion (200 bytes). -/
def sizeChangeEvents : List PipelineEvent :=
  [.DownloadStarted "wget" "https://example.com/wget.bottle",
   .DownloadProgressUpdate "wget" 50 (some 100),
   .DownloadFinished "wget" "/cache/wget.tar" 200]

/-- A concrete loop state with one buffered log line: reached from the
initial state by handling a `LogInfo` event. -/
def closedCexState : LoopState :=
  (handleRecv (LoopState.init 0) (.ok (.LogInfo "cached note")) 0).1

/-! ## Formatting theorems (C9, C5) -/

/-- `fmtOneDecimal` always prints an integer part, a point, and exactly one
decimal digit. -/
lemma fmtOneDecimal_shape (q : ℚ) :
    ∃ n d : ℕ, d < 10 ∧ fmtOneDecimal q = toString n ++ "." ++ toString d :=
  ⟨(round (q * 10)).toNat / 10, (round (q * 10)).toNat % 10,
    Nat.mod_lt _ (by norm_num), rfl⟩

/-- **C9**: `format_bytes 999 = "999B"`, `format_bytes 1000 = "1.0kB"`,
`format_bytes 1500000 = "1.5MB"`; inputs under 1000 bytes print as a bare
integer with a `B` suffix, and larger values use 1000-based unit steps
kB/MB/GB with exactly one decimal digit. -/
theorem format_bytes_spec :
    format_bytes 999 = "999B" ∧ format_bytes 1000 = "1.0kB" ∧
    format_bytes 1500000 = "1.5MB" ∧
    (∀ b : Nat, b < 1000 → format_bytes b = toString b ++ "B") ∧
    (∀ b : Nat, 1000 ≤ b → ∃ n d : ℕ, ∃ u : String, d < 10 ∧
      u ∈ ["kB", "MB", "GB"] ∧
      format_bytes b = toString n ++ "." ++ toString d ++ u) := by
  refine ⟨?_, ?_, ?_, ?_, ?_⟩
  · simp [format_bytes, unitStep, byteUnits]
    norm_num
    rfl
  · simp [format_bytes, unitStep, byteUnits, fmtOneDecimal]
    rfl
  · simp [format_bytes, unitStep, byteUnits, fmtOneDecimal]
    norm_num [round_eq]
    rfl
  · intro b hb
    have hb' : ¬ ((1000 : ℚ) ≤ (b : ℚ)) := by
      exact_mod_cast Nat.not_le.mpr hb
    simp [format_bytes, unitStep, byteUnits, hb']
  · intro b hb
    have hb1 : (1000 : ℚ) ≤ (b : ℚ) := by exact_mod_cast hb
    by_cases h2 : b < 1000000
    · have h2' : ¬ ((1000 : ℚ) ≤ (b : ℚ) / 1000) := by
        rw [not_le, div_lt_iff₀ (by norm_num : (0:ℚ) < 1000)]
        exact_mod_cast h2
      obtain ⟨n, d, hd, hfmt⟩ := fmtOneDecimal_shape ((b : ℚ) / 1000)
      refine ⟨n, d, "kB", hd, by simp, ?_⟩
      simp [format_bytes, unitStep, byteUnits, hb1, h2']
      rw [hfmt]
    · by_cases h3 : b < 1000000000
      · have h2' : (1000 : ℚ) ≤ (b : ℚ) / 1000 := by
          rw [le_div_iff₀ (by norm_num : (0:ℚ) < 1000)]
          exact_mod_cast Nat.not_lt.mp h2
        have h3' : ¬ ((1000 : ℚ) ≤ (b : ℚ) / 1000 / 1000) := by
          rw [div_div, not_le, div_lt_iff₀ (by norm_num : (0:ℚ) < 1000 * 1000)]
          exact_mod_cast h3
        obtain ⟨n, d, hd, hfmt⟩ := fmtOneDecimal_shape ((b : ℚ) / 1000 / 1000)
        refine ⟨n, d, "MB", hd, by simp, ?_⟩
        simp [format_bytes, unitStep, byteUnits, hb1, h2', h3']
        rw [hfmt]
      · have h2' : (1000 : ℚ) ≤ (b : ℚ) / 1000 := by
          rw [le_div_iff₀ (by norm_num : (0:ℚ) < 1000)]
          exact_mod_cast Nat.not_lt.mp h2
        have h3' : (1000 : ℚ) ≤ (b : ℚ) / 1000 / 1000 := by
          rw [div_div, le_div_iff₀ (by norm_num : (0:ℚ) < 1000 * 1000)]
          exact_mod_cast Nat.not_lt.mp h3
        obtain ⟨n, d, hd, hfmt⟩ := fmtOneDecimal_shape ((b : ℚ) / 1000 / 1000 / 1000)
        refine ⟨n, d, "GB", hd, by simp, ?_⟩
        simp [format_bytes, unitStep, byteUnits, hb1, h2', h3']
        rw [hfmt]

/-- **C9 witness**: the two quantified parts of `format_bytes_spec`
instantiated at 5 and 2500 bytes. -/
theorem format_bytes_spec_witness :
    ((5 : ℕ) < 1000 ∧ format_bytes 5 = toString 5 ++ "B") ∧
    ((1000 : ℕ) ≤ 2500 ∧ ∃ n d : ℕ, ∃ u : String, d < 10 ∧
      u ∈ ["kB", "MB", "GB"] ∧
      format_bytes 2500 = toString n ++ "." ++ toString d ++ u) :=
  ⟨⟨by decide, format_bytes_spec.2.2.2.1 5 (by decide)⟩,
   ⟨by decide, format_bytes_spec.2.2.2.2 2500 (by decide)⟩⟩

/-- **C5 counterexample**: `format_speed 2000.0` is not `"2.0kB/s"` — the
source formats the speed as `"{:.1} {}"`, with a space before the unit. -/
theorem format_speed_kBs_cex : format_speed 2000 ≠ "2.0kB/s" := by
  simp [format_speed, unitStep, byteUnits, speedUnits, fmtOneDecimal]
  norm_num [round_eq]
  decide

/-- **C5 (amended)**: `format_speed 0.5 = "0 B/s"` and every rate below
1 byte/second returns that fixed zero string; `format_speed 2000.0`
returns `"2.0 kB/s"` (with a space between the number and the unit, not
`"2.0kB/s"`). -/
theorem format_speed_amended :
    format_speed (1/2) = "0 B/s" ∧ format_speed 2000 = "2.0 kB/s" ∧
    (∀ q : ℚ, q < 1 → format_speed q = "0 B/s") := by
  refine ⟨?_, ?_, ?_⟩
  · norm_num [format_speed]
  · simp [format_speed, unitStep, byteUnits, speedUnits, fmtOneDecimal]
    norm_num [round_eq]
    rfl
  · intro q h
    simp [format_speed, h]

/-- **C5 witness**: the quantified part of `format_speed_amended`
instantiated at 1/2 byte/second. -/
theorem format_speed_amended_witness :
    (1/2 : ℚ) < 1 ∧ format_speed (1/2) = "0 B/s" :=
  ⟨by norm_num, format_speed_amended.2.2 (1/2) (by norm_num)⟩

/-! ## Coordinator theorems (C10, C6, C7, C1) -/

/-- **C10**: `add_job` on an already-known `target_id` leaves the entire
monitor state unchanged. -/
theorem add_job_idempotent (s : StatusDisplay) (target_id : String)
    (status : JobStatus) (size_bytes : Option Nat) (now : ℚ)
    (h : containsJob s.jobs target_id = true) :
    s.add_job target_id status size_bytes now = s := by
  simp [StatusDisplay.add_job, h]

/-- **C10 witness**: a duplicate `add_job` for `"wget"` (as from a duplicate
`DownloadStarted` event) is a no-op. -/
theorem add_job_idempotent_witness :
    containsJob ((StatusDisplay.new 0).add_job "wget" JobStatus.Waiting none 0).jobs
      "wget" = true ∧
    ((StatusDisplay.new 0).add_job "wget" JobStatus.Waiting none 0).add_job
      "wget" JobStatus.Downloading (some 5) 7 =
      (StatusDisplay.new 0).add_job "wget" JobStatus.Waiting none 0 :=
  ⟨by decide, add_job_idempotent _ "wget" _ _ _ (by decide)⟩

/-- **C6**: a job with a private-store override emits no events at all,
invokes no fetch, and resolves its outcome to `Ok` of exactly the override
path. -/
theorem private_store_job_behavior (job : PlannedJob) (env : JobEnv) (p : Path)
    (h : job.use_private_store_source = some p) :
    (runJobTask job env true).events = [] ∧
    (runJobTask job env true).fetchInvoked = false ∧
    (runJobTask job env true).outcome = some ⟨job, Except.ok p⟩ := by
  simp [runJobTask, h]

/-- **C6 witness**: `private_store_job_behavior` at a concrete cask job
whose override is `/store/x`. -/
theorem private_store_job_behavior_witness :
    samplePrivateJob.use_private_store_source = some "/store/x" ∧
    (runJobTask samplePrivateJob sampleQuietEnv true).events = [] ∧
    (runJobTask samplePrivateJob sampleQuietEnv true).fetchInvoked = false ∧
    (runJobTask samplePrivateJob sampleQuietEnv true).outcome =
      some ⟨samplePrivateJob, Except.ok "/store/x"⟩ :=
  ⟨rfl, private_store_job_behavior samplePrivateJob sampleQuietEnv "/store/x" rfl⟩

/-- **C7**: a cask job with no URL field (and no override) emits exactly one
`DownloadFailed` event, invokes no fetch, and sends an `Err` outcome with
the synthesized missing-URL error. -/
theorem cask_missing_url_behavior (job : PlannedJob) (env : JobEnv) (c : Cask)
    (h1 : job.use_private_store_source = none)
    (h2 : job.target_definition = .Cask c) (h3 : c.url = none) :
    (runJobTask job env true).events =
      [PipelineEvent.DownloadFailed job.target_id "N/A (No Cask URL)"
        ("Download URL is missing or invalid for job " ++ job.target_id)] ∧
    (runJobTask job env true).fetchInvoked = false ∧
    (runJobTask job env true).outcome =
      some ⟨job, Except.error (SpsError.Generic
        ("Download URL is missing or invalid for job " ++ job.target_id))⟩ := by
  simp [runJobTask, h1, displayUrlForEvent, h2, h3, SpsError.message]

/-- **C7 witness**: `cask_missing_url_behavior` at a concrete URL-less cask
job. -/
theorem cask_missing_url_behavior_witness :
    sampleNoUrlCaskJob.use_private_store_source = none ∧
    sampleNoUrlCaskJob.target_definition = .Cask ⟨none⟩ ∧
    (runJobTask sampleNoUrlCaskJob sampleQuietEnv true).events =
      [PipelineEvent.DownloadFailed "beta" "N/A (No Cask URL)"
        ("Download URL is missing or invalid for job " ++ "beta")] ∧
    (runJobTask sampleNoUrlCaskJob sampleQuietEnv true).outcome =
      some ⟨sampleNoUrlCaskJob, Except.error (SpsError.Generic
        ("Download URL is missing or invalid for job " ++ "beta"))⟩ :=
  ⟨rfl, rfl,
    (cask_missing_url_behavior sampleNoUrlCaskJob sampleQuietEnv ⟨none⟩ rfl rfl rfl).1,
    (cask_missing_url_behavior sampleNoUrlCaskJob sampleQuietEnv ⟨none⟩ rfl rfl rfl).2.2⟩

/-- Each spawned task either constructs its outcome (no panic) or panics
(no outcome): exactly one of the two. -/
lemma runJobTask_outcome_or_panic (job : PlannedJob) (env : JobEnv) :
    ((∃ o, (runJobTask job env true).outcome = some o) ∧
      (runJobTask job env true).panicPayload = none) ∨
    ((runJobTask job env true).outcome = none ∧
      (runJobTask job env true).panicPayload = some env.panicMsg) := by
  unfold runJobTask
  cases job.use_private_store_source with
  | some p => simp
  | none =>
    simp only []
    split
    · simp
    · split
      · simp
      · split <;> simp

/-- **C1**: when every outcome send is accepted (the downstream receiver
stays alive), the number of outcomes successfully sent plus the number of
panic entries in the returned list equals the number of jobs submitted, and
every panic entry is the synthetic
`("[UnknownDownloadTaskPanic]", Generic panic message)` pair. -/
theorem coordinate_downloads_accounting (jobs : List (PlannedJob × JobEnv))
    (hsend : ∀ je ∈ jobs, je.2.sendOk = true) :
    (coordinate_downloads jobs).outcomes.length +
      (coordinate_downloads jobs).critical_spawn_errors.length = jobs.length ∧
    (∀ entry ∈ (coordinate_downloads jobs).critical_spawn_errors,
      entry.1 = "[UnknownDownloadTaskPanic]" ∧
      ∃ msg, entry.2 = SpsError.Generic ("A download task panicked: " ++ msg)) := by
  induction jobs with
  | nil => simp [coordinate_downloads]
  | cons je rest ih =>
    have hje : je.2.sendOk = true := hsend je (by simp)
    have hrest := ih (fun x hx => hsend x (by simp [hx]))
    obtain ⟨hlen, hshape⟩ := hrest
    rcases runJobTask_outcome_or_panic je.1 je.2 with ⟨⟨o, ho⟩, hp⟩ | ⟨ho, hp⟩
    · constructor
      · simp [coordinate_downloads, hje, ho, hp]
        omega
      · intro entry hmem
        simp [coordinate_downloads, hp] at hmem
        exact hshape entry hmem
    · constructor
      · simp [coordinate_downloads, hje, ho, hp]
        omega
      · intro entry hmem
        simp [coordinate_downloads, hp] at hmem
        rcases hmem with hentry | hmem
        · subst hentry
          exact ⟨rfl, je.2.panicMsg, rfl⟩
        · exact hshape entry hmem

/-- **C1 witness**: a two-job run — a private-store job that completes and a
bottle job whose fetch panics — yields one outcome plus one panic entry. -/
theorem coordinate_downloads_accounting_witness :
    (∀ je ∈ [(samplePrivateJob, sampleQuietEnv), (sampleBottleJob, samplePanicEnv)],
      je.2.sendOk = true) ∧
    (coordinate_downloads
        [(samplePrivateJob, sampleQuietEnv), (sampleBottleJob, samplePanicEnv)]).outcomes.length +
      (coordinate_downloads
        [(samplePrivateJob, sampleQuietEnv), (sampleBottleJob, samplePanicEnv)]).critical_spawn_errors.length = 2 :=
  ⟨by decide,
   (coordinate_downloads_accounting
     [(samplePrivateJob, sampleQuietEnv), (sampleBottleJob, samplePanicEnv)]
     (by decide)).1⟩

/-! ## Association-list and sum lemmas -/

lemma lookupJob_append_some {l m : List (String × JobInfo)} {target_id : String}
    {j : JobInfo} (h : lookupJob l target_id = some j) :
    lookupJob (l ++ m) target_id = some j := by
  induction l with
  | nil => simp [lookupJob] at h
  | cons kv rest ih =>
    by_cases hk : kv.1 = target_id
    · simpa [lookupJob, hk] using h
    · simp [lookupJob, hk] at h ⊢
      exact ih h

lemma lookupJob_append_none {l m : List (String × JobInfo)} {target_id : String}
    (h : lookupJob l target_id = none) :
    lookupJob (l ++ m) target_id = lookupJob m target_id := by
  induction l with
  | nil => simp
  | cons kv rest ih =>
    by_cases hk : kv.1 = target_id
    · simp [lookupJob, hk] at h
    · simp [lookupJob, hk] at h ⊢
      exact ih h

lemma modifyJob_of_lookup_none {l : List (String × JobInfo)} {target_id : String}
    {nj : JobInfo} (h : lookupJob l target_id = none) :
    modifyJob l target_id nj = l := by
  induction l with
  | nil => simp [modifyJob]
  | cons kv rest ih =>
    by_cases hk : kv.1 = target_id
    · simp [lookupJob, hk] at h
    · simp [lookupJob, hk] at h
      simp [modifyJob, hk, ih h]

lemma lookupJob_modifyJob_self {l : List (String × JobInfo)} {target_id : String}
    {j nj : JobInfo} (h : lookupJob l target_id = some j) :
    lookupJob (modifyJob l target_id nj) target_id = some nj := by
  induction l with
  | nil => simp [lookupJob] at h
  | cons kv rest ih =>
    by_cases hk : kv.1 = target_id
    · simp [modifyJob, lookupJob, hk]
    · simp [lookupJob, hk] at h
      simp [modifyJob, lookupJob, hk]
      exact ih h

lemma lookupJob_modifyJob_ne {l : List (String × JobInfo)} {target_id other : String}
    {nj : JobInfo} (h : other ≠ target_id) :
    lookupJob (modifyJob l target_id nj) other = lookupJob l other := by
  induction l with
  | nil => simp [modifyJob]
  | cons kv rest ih =>
    by_cases hk : kv.1 = target_id
    · simp [modifyJob, lookupJob, hk, Ne.symm h]
    · by_cases ho : kv.1 = other <;> simp [modifyJob, lookupJob, hk, ho, ih, h]

lemma sumSizes_append (l : List (String × JobInfo)) (x : String × JobInfo) :
    sumSizes (l ++ [x]) = sumSizes l + x.2.size_bytes.getD 0 := by
  simp [sumSizes]

lemma sumSizes_modifyJob {l : List (String × JobInfo)} {target_id : String}
    {j : JobInfo} (nj : JobInfo) (h : lookupJob l target_id = some j) :
    sumSizes (modifyJob l target_id nj) + j.size_bytes.getD 0 =
      sumSizes l + nj.size_bytes.getD 0 := by
  induction l with
  | nil => simp [lookupJob] at h
  | cons kv rest ih =>
    by_cases hk : kv.1 = target_id
    · simp [lookupJob, hk] at h
      subst h
      simp [modifyJob, hk, sumSizes]
      omega
    · simp [lookupJob, hk] at h
      have hrec := ih h
      simp [modifyJob, hk, sumSizes] at hrec ⊢
      omega

lemma size_le_sumSizes {l : List (String × JobInfo)} {target_id : String}
    {j : JobInfo} (h : lookupJob l target_id = some j) :
    j.size_bytes.getD 0 ≤ sumSizes l := by
  induction l with
  | nil => simp [lookupJob] at h
  | cons kv rest ih =>
    by_cases hk : kv.1 = target_id
    · simp [lookupJob, hk] at h
      subst h
      simp [sumSizes]
    · simp [lookupJob, hk] at h
      have := ih h
      simp [sumSizes] at this ⊢
      omega

lemma containsJob_false_iff {l : List (String × JobInfo)} {target_id : String} :
    ¬ containsJob l target_id = true ↔ lookupJob l target_id = none := by
  cases h : lookupJob l target_id <;> simp [containsJob, h]

/-! ## Monitor invariant lemmas (C8, C2) -/

lemma activeInv_new (now : ℚ) : activeDownloadsInv (StatusDisplay.new now) := by
  intro other
  simp [StatusDisplay.new, lookupJob]

lemma activeInv_add_job (s : StatusDisplay) (target_id : String) (status : JobStatus)
    (size_bytes : Option Nat) (now : ℚ) (h : activeDownloadsInv s) :
    activeDownloadsInv (s.add_job target_id status size_bytes now) := by
  by_cases hc : containsJob s.jobs target_id = true
  · simpa [StatusDisplay.add_job, hc] using h
  · have hnone : lookupJob s.jobs target_id = none := containsJob_false_iff.mp hc
    intro other
    simp only [StatusDisplay.add_job, hc, if_false, Bool.false_eq_true]
    by_cases ho : other = target_id
    · subst ho
      rw [lookupJob_append_none hnone]
      have hmem : ¬ other ∈ s.active_downloads := by
        rw [h other]
        simp [hnone]
      by_cases hst : status = JobStatus.Downloading <;>
        simp [lookupJob, hst, hmem]
    · have hlook : ∀ ji : JobInfo, lookupJob (s.jobs ++ [(target_id, ji)]) other =
          lookupJob s.jobs other := by
        intro ji
        rcases hl : lookupJob s.jobs other with _ | j
        · rw [lookupJob_append_none hl]
          simp [lookupJob, Ne.symm ho]
        · exact lookupJob_append_some hl
      by_cases hst : status = JobStatus.Downloading <;>
        simp [hst, hlook, Finset.mem_insert, ho, h other]

lemma activeInv_update_job_status (s : StatusDisplay) (target_id : String)
    (status : JobStatus) (size_bytes : Option Nat) (now : ℚ)
    (h : activeDownloadsInv s) :
    activeDownloadsInv (s.update_job_status target_id status size_bytes now) := by
  rcases hlk : lookupJob s.jobs target_id with _ | job
  · simpa [StatusDisplay.update_job_status, hlk] using h
  · intro other
    by_cases hw : job.status = JobStatus.Downloading <;>
    by_cases hi : status = JobStatus.Downloading <;>
    by_cases hst : (job.start_time = none ∧ ¬ status = JobStatus.Waiting) <;>
    cases size_bytes <;>
    rcases hjs : job.size_bytes with _ | oldsz <;>
    by_cases ho : other = target_id <;>
    simp [StatusDisplay.update_job_status, hlk, hw, hi, hst, hjs, ho,
          lookupJob_modifyJob_self hlk, lookupJob_modifyJob_ne,
          Finset.mem_erase, Finset.mem_insert, h other, h target_id,
          apply_ite JobInfo.status]

lemma activeInv_update_download_progress (s : StatusDisplay) (target_id : String)
    (bytes_so_far : Nat) (total_size : Option Nat) (h : activeDownloadsInv s) :
    activeDownloadsInv (s.update_download_progress target_id bytes_so_far total_size) := by
  rcases hlk : lookupJob s.jobs target_id with _ | job
  · simpa [StatusDisplay.update_download_progress, hlk] using h
  · intro other
    cases total_size with
    | none =>
      by_cases ho : other = target_id <;>
      simp [StatusDisplay.update_download_progress, hlk, ho,
            lookupJob_modifyJob_self hlk, lookupJob_modifyJob_ne, h other, h target_id]
    | some total =>
      rcases hjs : job.size_bytes with _ | oldsz
      · by_cases ho : other = target_id <;>
        simp [StatusDisplay.update_download_progress, hlk, hjs, ho,
              lookupJob_modifyJob_self hlk, lookupJob_modifyJob_ne, h other, h target_id]
      · by_cases he : oldsz = total <;>
        by_cases ho : other = target_id <;>
        simp [StatusDisplay.update_download_progress, hlk, hjs, he, ho,
              lookupJob_modifyJob_self hlk, lookupJob_modifyJob_ne, h other, h target_id]

lemma totalInv_new (now : ℚ) : totalBytesInv (StatusDisplay.new now) := by
  simp [totalBytesInv, StatusDisplay.new, sumSizes]

lemma totalInv_add_job (s : StatusDisplay) (target_id : String) (status : JobStatus)
    (size_bytes : Option Nat) (now : ℚ) (h : totalBytesInv s) :
    totalBytesInv (s.add_job target_id status size_bytes now) := by
  have hh : s.total_bytes = sumSizes s.jobs := h
  by_cases hc : containsJob s.jobs target_id = true
  · simpa [StatusDisplay.add_job, hc] using h
  · cases size_bytes <;>
    simp [totalBytesInv, StatusDisplay.add_job, hc, sumSizes_append, hh]

lemma totalInv_update_download_progress (s : StatusDisplay) (target_id : String)
    (bytes_so_far : Nat) (total_size : Option Nat) (h : totalBytesInv s) :
    totalBytesInv (s.update_download_progress target_id bytes_so_far total_size) := by
  have hh : s.total_bytes = sumSizes s.jobs := h
  rcases hlk : lookupJob s.jobs target_id with _ | job
  · simpa [StatusDisplay.update_download_progress, hlk] using h
  · cases total_size with
    | none =>
      have hsum := sumSizes_modifyJob
        { job with current_bytes_downloaded := some bytes_so_far } hlk
      simp [totalBytesInv, StatusDisplay.update_download_progress, hlk] at hsum ⊢
      omega
    | some total =>
      rcases hjs : job.size_bytes with _ | oldsz
      · have hsum := sumSizes_modifyJob { job with
          current_bytes_downloaded := some bytes_so_far, size_bytes := some total } hlk
        simp [totalBytesInv, StatusDisplay.update_download_progress, hlk, hjs] at hsum ⊢
        omega
      · have hle := size_le_sumSizes hlk
        by_cases he : oldsz = total
        · have hsum := sumSizes_modifyJob
            { job with current_bytes_downloaded := some bytes_so_far } hlk
          simp [totalBytesInv, StatusDisplay.update_download_progress, hlk, hjs, he]
            at hsum hle ⊢
          omega
        · have hsum := sumSizes_modifyJob { job with
            current_bytes_downloaded := some bytes_so_far, size_bytes := some total } hlk
          simp [totalBytesInv, StatusDisplay.update_download_progress, hlk, hjs, he]
            at hsum hle ⊢
          omega

lemma totalInv_update_job_status (s : StatusDisplay) (target_id : String)
    (status : JobStatus) (size_bytes : Option Nat) (now : ℚ) (h : totalBytesInv s)
    (hprov : ∀ job, lookupJob s.jobs target_id = some job →
      size_bytes = none ∨ job.size_bytes = none ∨ size_bytes = job.size_bytes) :
    totalBytesInv (s.update_job_status target_id status size_bytes now) := by
  have hh : s.total_bytes = sumSizes s.jobs := h
  rcases hlk : lookupJob s.jobs target_id with _ | job
  · simpa [StatusDisplay.update_job_status, hlk] using h
  · have hA : ∀ nj : JobInfo, nj.size_bytes = job.size_bytes →
        sumSizes (modifyJob s.jobs target_id nj) = sumSizes s.jobs := by
      intro nj hs
      have hsum := sumSizes_modifyJob nj hlk
      rw [hs] at hsum
      omega
    have hB : ∀ (nj : JobInfo) (b : Nat), nj.size_bytes = some b →
        job.size_bytes = none →
        sumSizes (modifyJob s.jobs target_id nj) = sumSizes s.jobs + b := by
      intro nj b hs hjn
      have hsum := sumSizes_modifyJob nj hlk
      rw [hs, hjn] at hsum
      simp at hsum
      omega
    rcases hjs0 : job.size_bytes with _ | oldsz
    · cases size_bytes with
      | none =>
        simp [totalBytesInv, StatusDisplay.update_job_status, hlk, hjs0,
              apply_ite StatusDisplay.total_bytes, apply_ite StatusDisplay.jobs,
              apply_ite sumSizes, apply_ite JobInfo.size_bytes, hA, hh]
      | some b =>
        simp [totalBytesInv, StatusDisplay.update_job_status, hlk, hjs0,
              apply_ite StatusDisplay.total_bytes, apply_ite StatusDisplay.jobs,
              apply_ite sumSizes, apply_ite JobInfo.size_bytes, hB, hh]
    · cases size_bytes with
      | none =>
        simp [totalBytesInv, StatusDisplay.update_job_status, hlk, hjs0,
              apply_ite StatusDisplay.total_bytes, apply_ite StatusDisplay.jobs,
              apply_ite sumSizes, apply_ite JobInfo.size_bytes, hA, hh]
      | some b =>
        rcases hprov job hlk with h1 | h2 | h3
        · exact absurd h1 (by simp)
        · rw [hjs0] at h2
          exact absurd h2 (by simp)
        · rw [hjs0] at h3
          have hb : b = oldsz := Option.some.inj h3
          subst hb
          simp [totalBytesInv, StatusDisplay.update_job_status, hlk, hjs0,
                apply_ite StatusDisplay.total_bytes, apply_ite StatusDisplay.jobs,
                apply_ite sumSizes, apply_ite JobInfo.size_bytes, hA, hh]

/-! ## Monitor invariant theorems (C8, C2) -/

/-- **C8**: `active_downloads` contains exactly the jobs whose status is
`Downloading`, initially and across every event-handling operation
(`add_job`, `update_job_status`, `update_download_progress`). -/
theorem active_downloads_tracks_downloading :
    (∀ now, activeDownloadsInv (StatusDisplay.new now)) ∧
    (∀ s target_id status size_bytes now, activeDownloadsInv s →
      activeDownloadsInv (s.add_job target_id status size_bytes now)) ∧
    (∀ s target_id status size_bytes now, activeDownloadsInv s →
      activeDownloadsInv (s.update_job_status target_id status size_bytes now)) ∧
    (∀ s target_id bytes_so_far total_size, activeDownloadsInv s →
      activeDownloadsInv (s.update_download_progress target_id bytes_so_far total_size)) :=
  ⟨activeInv_new,
   fun s a b c d h => activeInv_add_job s a b c d h,
   fun s a b c d h => activeInv_update_job_status s a b c d h,
   fun s a b c h => activeInv_update_download_progress s a b c h⟩

/-- **C8 witness**: the invariant holds at the concrete state reached by
adding a downloading job and then marking it downloaded. -/
theorem active_downloads_tracks_downloading_witness :
    activeDownloadsInv (((StatusDisplay.new 0).add_job "wget"
      JobStatus.Downloading none 0).update_job_status "wget"
      JobStatus.Downloaded (some 7) 1) :=
  active_downloads_tracks_downloading.2.2.1 _ "wget" _ _ 1
    (active_downloads_tracks_downloading.2.1 _ "wget" _ _ 0
      (active_downloads_tracks_downloading.1 0))

/-- **C2 counterexample**: after `DownloadStarted`, a progress update
reporting a server total of 100 bytes, and `DownloadFinished` with a
size of 200 bytes obtained by stat, `update_job_status` overwrites the known size
without adjusting the aggregate: `total_bytes` is 100 while the sum of the
per-job sizes is 200, so the invariant does not hold at every point. -/
theorem monitor_total_bytes_cex :
    (applyEvents (LoopState.init 0) sizeChangeEvents 0).display.total_bytes = 100 ∧
    sumSizes (applyEvents (LoopState.init 0) sizeChangeEvents 0).display.jobs = 200 ∧
    ¬ ((applyEvents (LoopState.init 0) sizeChangeEvents 0).display.total_bytes =
        sumSizes (applyEvents (LoopState.init 0) sizeChangeEvents 0).display.jobs) := by
  refine ⟨by decide, by decide, by decide⟩

/-- **C2 (amended)**: `total_bytes` equals the sum of all per-job size
estimates initially, after `add_job`, after `update_download_progress`
(which does adjust by subtracting the old estimate and adding the new one),
and after `update_job_status` provided the size it is given does not differ
from an already-known size.  When `update_job_status` receives a size for a
job whose size is already known and different, it overwrites the per-job
size without adjusting `total_bytes` (see the counterexample), so the
unconditional invariant fails. -/
theorem monitor_total_bytes_amended :
    (∀ now, totalBytesInv (StatusDisplay.new now)) ∧
    (∀ s target_id status size_bytes now, totalBytesInv s →
      totalBytesInv (s.add_job target_id status size_bytes now)) ∧
    (∀ s target_id bytes_so_far total_size, totalBytesInv s →
      totalBytesInv (s.update_download_progress target_id bytes_so_far total_size)) ∧
    (∀ s target_id status size_bytes now, totalBytesInv s →
      (∀ job, lookupJob s.jobs target_id = some job →
        size_bytes = none ∨ job.size_bytes = none ∨ size_bytes = job.size_bytes) →
      totalBytesInv (s.update_job_status target_id status size_bytes now)) :=
  ⟨totalInv_new,
   fun s a b c d h => totalInv_add_job s a b c d h,
   fun s a b c h => totalInv_update_download_progress s a b c h,
   fun s a b c d h hp => totalInv_update_job_status s a b c d h hp⟩

/-- **C2 witness**: the amended invariant applied along a concrete run —
add a downloading job with unknown size, then mark it downloaded with a
first known size of 7 bytes. -/
theorem monitor_total_bytes_amended_witness :
    totalBytesInv (((StatusDisplay.new 0).add_job "wget" JobStatus.Downloading
      none 0).update_job_status "wget" JobStatus.Downloaded (some 7) 1) := by
  apply monitor_total_bytes_amended.2.2.2 _ "wget" JobStatus.Downloaded (some 7) 1
  · exact monitor_total_bytes_amended.2.1 _ "wget" JobStatus.Downloading none 0
      (monitor_total_bytes_amended.1 0)
  · intro job hj
    right; left
    have hx : lookupJob ((StatusDisplay.new 0).add_job "wget"
        JobStatus.Downloading none 0).jobs "wget" =
        some ⟨"wget", JobStatus.Downloading, none, some 0, some 0, 1⟩ := by decide
    rw [hx] at hj
    rw [(Option.some.inj hj).symm]

/-! ## Render preservation lemmas -/

lemma update_speed_jobs (s : StatusDisplay) (now : ℚ) :
    (s.update_speed now).jobs = s.jobs := by
  simp [StatusDisplay.update_speed, apply_ite StatusDisplay.jobs]

lemma update_speed_next_pool_id (s : StatusDisplay) (now : ℚ) :
    (s.update_speed now).next_pool_id = s.next_pool_id := by
  simp [StatusDisplay.update_speed, apply_ite StatusDisplay.next_pool_id]

lemma render_jobs (s : StatusDisplay) (now : ℚ) :
    ((s.render now).1).jobs = s.jobs := by
  simp [StatusDisplay.render, apply_ite (Prod.fst (α := StatusDisplay) (β := List Output)),
        apply_ite StatusDisplay.jobs, update_speed_jobs]

lemma render_next_pool_id (s : StatusDisplay) (now : ℚ) :
    ((s.render now).1).next_pool_id = s.next_pool_id := by
  simp [StatusDisplay.render, apply_ite (Prod.fst (α := StatusDisplay) (β := List Output)),
        apply_ite StatusDisplay.next_pool_id, update_speed_next_pool_id]

lemma recvStep_display_jobs (st : LoopState) (now : ℚ) :
    ((recvStep st now).1).display.jobs = st.display.jobs := by
  simp [recvStep, renderIfActive,
        apply_ite (Prod.fst (α := LoopState) (β := List Output)),
        apply_ite LoopState.display, apply_ite StatusDisplay.jobs, render_jobs]

lemma recvStep_display_next_pool_id (st : LoopState) (now : ℚ) :
    ((recvStep st now).1).display.next_pool_id = st.display.next_pool_id := by
  simp [recvStep, renderIfActive,
        apply_ite (Prod.fst (α := LoopState) (β := List Output)),
        apply_ite LoopState.display, apply_ite StatusDisplay.next_pool_id,
        render_next_pool_id]

/-! ## Lookup preservation lemmas -/

lemma add_job_lookup_preserved (s : StatusDisplay) (target_id : String)
    (status : JobStatus) (size_bytes : Option Nat) (now : ℚ) (other : String)
    (ji : JobInfo) (h : lookupJob s.jobs other = some ji) :
    lookupJob (s.add_job target_id status size_bytes now).jobs other = some ji := by
  by_cases hc : containsJob s.jobs target_id = true
  · simpa [StatusDisplay.add_job, hc] using h
  · simp [StatusDisplay.add_job, hc, lookupJob_append_some h]

lemma update_job_status_lookup (s : StatusDisplay) (target_id : String)
    (status : JobStatus) (size_bytes : Option Nat) (now : ℚ) (other : String)
    (ji : JobInfo) (h : lookupJob s.jobs other = some ji) :
    ∃ ji2, lookupJob (s.update_job_status target_id status size_bytes now).jobs other
        = some ji2 ∧ ji2.pool_id = ji.pool_id := by
  rcases hlk : lookupJob s.jobs target_id with _ | job
  · exact ⟨ji, by simp [StatusDisplay.update_job_status, hlk, h], rfl⟩
  · by_cases ho : other = target_id
    · subst ho
      obtain rfl := Option.some.inj (hlk.symm.trans h)
      by_cases hw : job.status = JobStatus.Downloading <;>
      by_cases hi : status = JobStatus.Downloading <;>
      by_cases hst : (job.start_time = none ∧ ¬ status = JobStatus.Waiting) <;>
      cases size_bytes <;>
      rcases hjs : job.size_bytes with _ | oldsz <;>
      simp [StatusDisplay.update_job_status, hlk, hw, hi, hst, hjs,
            lookupJob_modifyJob_self hlk, apply_ite JobInfo.pool_id]
    · exact ⟨ji, by
        simp [StatusDisplay.update_job_status, hlk, apply_ite StatusDisplay.jobs,
              apply_ite (fun l => lookupJob l other), lookupJob_modifyJob_ne ho, h],
        rfl⟩

lemma update_download_progress_lookup (s : StatusDisplay) (target_id : String)
    (bytes_so_far : Nat) (total_size : Option Nat) (other : String)
    (ji : JobInfo) (h : lookupJob s.jobs other = some ji) :
    ∃ ji2, lookupJob (s.update_download_progress target_id bytes_so_far total_size).jobs
        other = some ji2 ∧ ji2.pool_id = ji.pool_id := by
  rcases hlk : lookupJob s.jobs target_id with _ | job
  · exact ⟨ji, by simp [StatusDisplay.update_download_progress, hlk, h], rfl⟩
  · by_cases ho : other = target_id
    · subst ho
      obtain rfl := Option.some.inj (hlk.symm.trans h)
      cases total_size with
      | none =>
        simp [StatusDisplay.update_download_progress, hlk,
              lookupJob_modifyJob_self hlk]
      | some total =>
        rcases hjs : job.size_bytes with _ | oldsz
        · simp [StatusDisplay.update_download_progress, hlk, hjs,
                lookupJob_modifyJob_self hlk]
        · by_cases he : oldsz = total <;>
          simp [StatusDisplay.update_download_progress, hlk, hjs, he,
                lookupJob_modifyJob_self hlk]
    · cases total_size with
      | none =>
        exact ⟨ji, by
          simp [StatusDisplay.update_download_progress, hlk,
                lookupJob_modifyJob_ne ho, h], rfl⟩
      | some total =>
        exact ⟨ji, by
          simp [StatusDisplay.update_download_progress, hlk,
                apply_ite StatusDisplay.jobs, apply_ite (fun l => lookupJob l other),
                lookupJob_modifyJob_ne ho, h], rfl⟩

/-! ## Event-loop theorems (C3, C4) -/

/-- **C3 (amended)**: only a `DownloadStarted` event creates a `JobInfo` —
on an unseen `target_id` it creates the entry with the next sequential pool
id and bumps the counter; every other `target_id`-carrying event on an
unseen id leaves the jobs map unchanged (the update handlers are no-ops for
unknown jobs); and no event ever deletes an entry or changes its pool id. -/
theorem jobinfo_creation_amended :
    (∀ st id url now, lookupJob st.display.jobs id = none →
      lookupJob ((handleRecv st (.ok (.DownloadStarted id url)) now).1).display.jobs id =
        some ⟨id, JobStatus.Downloading, none, some 0, some now,
          st.display.next_pool_id⟩ ∧
      ((handleRecv st (.ok (.DownloadStarted id url)) now).1).display.next_pool_id =
        st.display.next_pool_id + 1) ∧
    (∀ st e now id, eventTargetId e = some id →
      (∀ url, e ≠ .DownloadStarted id url) →
      lookupJob st.display.jobs id = none →
      ((handleRecv st (.ok e) now).1).display.jobs = st.display.jobs) ∧
    (∀ st r now id ji, lookupJob st.display.jobs id = some ji →
      ∃ ji2, lookupJob ((handleRecv st r now).1).display.jobs id = some ji2 ∧
        ji2.pool_id = ji.pool_id) := by
  refine ⟨?_, ?_, ?_⟩
  · intro st id url now hnone
    have hc : ¬ containsJob st.display.jobs id = true := containsJob_false_iff.mpr hnone
    constructor
    · simp only [handleRecv, recvStep_display_jobs]
      simp [StatusDisplay.add_job, hc, lookupJob_append_none hnone, lookupJob]
    · simp only [handleRecv, recvStep_display_next_pool_id]
      simp [StatusDisplay.add_job, hc]
  · intro st e now id h1 h2 h3
    cases e with
    | DownloadStarted tid url =>
      simp [eventTargetId] at h1
      subst h1
      exact absurd rfl (h2 url)
    | DownloadProgressUpdate tid b t =>
      simp [eventTargetId] at h1
      subst h1
      simp [handleRecv, recvStep_display_jobs, StatusDisplay.update_download_progress, h3]
    | DownloadFinished tid p sz =>
      simp [eventTargetId] at h1
      subst h1
      simp [handleRecv, recvStep_display_jobs, StatusDisplay.update_job_status, h3]
    | DownloadCached tid sz =>
      simp [eventTargetId] at h1
      subst h1
      simp [handleRecv, recvStep_display_jobs, StatusDisplay.update_job_status, h3]
    | DownloadFailed tid url err =>
      simp [eventTargetId] at h1
      subst h1
      simp [handleRecv, recvStep_display_jobs, StatusDisplay.update_job_status, h3]
    | JobProcessingStarted tid =>
      simp [eventTargetId] at h1
      subst h1
      simp [handleRecv, recvStep_display_jobs, StatusDisplay.update_job_status, h3]
    | BuildStarted tid =>
      simp [eventTargetId] at h1
      subst h1
      simp [handleRecv, recvStep_display_jobs, StatusDisplay.update_job_status, h3]
    | InstallStarted tid =>
      simp [eventTargetId] at h1
      subst h1
      simp [handleRecv, recvStep_display_jobs, StatusDisplay.update_job_status, h3]
    | LinkStarted tid =>
      simp [eventTargetId] at h1
      subst h1
      simp [handleRecv, recvStep_display_jobs, StatusDisplay.update_job_status, h3]
    | JobSuccess tid act pk =>
      simp [eventTargetId] at h1
      subst h1
      simp [handleRecv, recvStep_display_jobs, StatusDisplay.update_job_status, h3]
    | JobFailed tid err =>
      simp [eventTargetId] at h1
      subst h1
      simp [handleRecv, recvStep_display_jobs, StatusDisplay.update_job_status, h3]
    | PipelineStarted n => simp [eventTargetId] at h1
    | PlanningStarted => simp [eventTargetId] at h1
    | DependencyResolutionStarted => simp [eventTargetId] at h1
    | DependencyResolutionFinished => simp [eventTargetId] at h1
    | PlanningFinished n => simp [eventTargetId] at h1
    | LogInfo m => simp [eventTargetId] at h1
    | LogWarn m => simp [eventTargetId] at h1
    | LogError m => simp [eventTargetId] at h1
    | PipelineFinished d sc fc => simp [eventTargetId] at h1
  · intro st r now id ji h
    cases r with
    | closed => exact ⟨ji, h, rfl⟩
    | lagged => exact ⟨ji, h, rfl⟩
    | ok e =>
      cases e with
      | PipelineStarted n => exact ⟨ji, by simp [handleRecv, h], rfl⟩
      | PlanningStarted => exact ⟨ji, by simp [handleRecv, h], rfl⟩
      | DependencyResolutionStarted => exact ⟨ji, by simp [handleRecv, h], rfl⟩
      | DependencyResolutionFinished => exact ⟨ji, by simp [handleRecv, h], rfl⟩
      | PlanningFinished n => exact ⟨ji, by simp [handleRecv, h], rfl⟩
      | DownloadStarted tid url =>
        exact ⟨ji, by
          simp only [handleRecv, recvStep_display_jobs]
          exact add_job_lookup_preserved _ _ _ _ _ _ _ h, rfl⟩
      | DownloadProgressUpdate tid b t =>
        simp only [handleRecv, recvStep_display_jobs]
        exact update_download_progress_lookup _ _ _ _ _ _ h
      | DownloadFinished tid p sz =>
        simp only [handleRecv, recvStep_display_jobs]
        exact update_job_status_lookup _ _ _ _ _ _ _ h
      | DownloadCached tid sz =>
        simp only [handleRecv, recvStep_display_jobs]
        exact update_job_status_lookup _ _ _ _ _ _ _ h
      | DownloadFailed tid url err =>
        simp only [handleRecv, recvStep_display_jobs]
        exact update_job_status_lookup _ _ _ _ _ _ _ h
      | JobProcessingStarted tid =>
        simp only [handleRecv, recvStep_display_jobs]
        exact update_job_status_lookup _ _ _ _ _ _ _ h
      | BuildStarted tid =>
        simp only [handleRecv, recvStep_display_jobs]
        exact update_job_status_lookup _ _ _ _ _ _ _ h
      | InstallStarted tid =>
        simp only [handleRecv, recvStep_display_jobs]
        exact update_job_status_lookup _ _ _ _ _ _ _ h
      | LinkStarted tid =>
        simp only [handleRecv, recvStep_display_jobs]
        exact update_job_status_lookup _ _ _ _ _ _ _ h
      | JobSuccess tid act pk =>
        simp only [handleRecv, recvStep_display_jobs]
        exact update_job_status_lookup _ _ _ _ _ _ _ h
      | JobFailed tid err =>
        simp only [handleRecv, recvStep_display_jobs]
        exact update_job_status_lookup _ _ _ _ _ _ _ h
      | LogInfo m => exact ⟨ji, by simp [handleRecv, h], rfl⟩
      | LogWarn m => exact ⟨ji, by simp [handleRecv, h], rfl⟩
      | LogError m => exact ⟨ji, by simp [handleRecv, h], rfl⟩
      | PipelineFinished d sc fc =>
        exact ⟨ji, by
          simp [handleRecv, apply_ite LoopState.display, apply_ite StatusDisplay.jobs,
                render_jobs, h], rfl⟩

/-- **C3 counterexample**: handling a `JobSuccess` event for a `target_id`
the monitor has never seen creates no `JobInfo` entry — the jobs map stays
empty, contradicting the claim that every `target_id`-carrying event
creates an entry on first reference. -/
theorem jobinfo_creation_cex :
    eventTargetId (PipelineEvent.JobSuccess "wget" JobAction.Install
      PipelinePackageType.Formula) = some "wget" ∧
    (LoopState.init 0).display.jobs = [] ∧
    ((handleRecv (LoopState.init 0) (.ok (.JobSuccess "wget" JobAction.Install
      PipelinePackageType.Formula)) 0).1).display.jobs = [] :=
  ⟨rfl, rfl, by decide⟩

/-- **C3 witness**: the creation conjunct of `jobinfo_creation_amended`
instantiated at the initial state and a fresh `DownloadStarted`. -/
theorem jobinfo_creation_amended_witness :
    lookupJob (LoopState.init 0).display.jobs "wget" = none ∧
    lookupJob ((handleRecv (LoopState.init 0)
        (.ok (.DownloadStarted "wget" "https://example.com/w")) 0).1).display.jobs
      "wget" = some ⟨"wget", JobStatus.Downloading, none, some 0, some 0, 1⟩ ∧
    ((handleRecv (LoopState.init 0)
        (.ok (.DownloadStarted "wget" "https://example.com/w")) 0).1).display.next_pool_id
      = 2 :=
  ⟨by decide,
   (jobinfo_creation_amended.1 (LoopState.init 0) "wget"
     "https://example.com/w" 0 (by decide)).1,
   (jobinfo_creation_amended.1 (LoopState.init 0) "wget"
     "https://example.com/w" 0 (by decide)).2⟩

/-- **C4 counterexample**: with a non-empty `logs_buffer`, the closed
condition makes the loop break immediately, printing nothing — no
pipeline-finished line and no buffered log lines are flushed. -/
theorem closed_no_summary_cex :
    closedCexState.logs_buffer = ["cached note"] ∧
    handleRecv closedCexState RecvResult.closed 0 = (closedCexState, [], true) :=
  ⟨by decide, rfl⟩

/-- **C4 (amended)**: the closed condition ends the loop gracefully but
flushes nothing; the final summary — the pipeline-finished line and the
buffered log lines — is printed (and the loop ends) only when a
`PipelineFinished` event is received. -/
theorem closed_graceful_amended :
    (∀ st now, handleRecv st RecvResult.closed now = (st, [], true)) ∧
    (∀ st now (d : ℚ) (sc fc : Nat),
      (handleRecv st (.ok (.PipelineFinished d sc fc)) now).2.2 = true ∧
      Output.pipelineFinishedLine d sc fc ∈
        (handleRecv st (.ok (.PipelineFinished d sc fc)) now).2.1 ∧
      ∀ l ∈ st.logs_buffer, Output.logLine l ∈
        (handleRecv st (.ok (.PipelineFinished d sc fc)) now).2.1) := by
  constructor
  · intro st now
    rfl
  · intro st now d sc fc
    refine ⟨rfl, ?_, ?_⟩
    · simp [handleRecv]
    · intro l hl
      have hne : st.logs_buffer.isEmpty = false := by
        cases hb : st.logs_buffer with
        | nil => rw [hb] at hl; cases hl
        | cons a as => simp [hb]
      simp [handleRecv, hne, hl]

theorem closed_graceful_amended_witness :
    handleRecv closedCexState RecvResult.closed 7 = (closedCexState, [], true) ∧
    ("cached note" ∈ closedCexState.logs_buffer ∧
      Output.logLine "cached note" ∈
        (handleRecv closedCexState (.ok (.PipelineFinished 2 1 0)) 7).2.1) :=
  ⟨closed_graceful_amended.1 closedCexState 7,
   by decide,
   (closed_graceful_amended.2 closedCexState 7 2 1 0).2.2 "cached note" (by decide)⟩

end Sapphire
